import Mathlib

/-!
Shallow embedding of the game-stats repository (src/baseless.py, src/bgg.py,
src/ext.py, src/lambda_function.py) together with proofs about its statistics
engine, its HTTP retry policy and its entry points.

Conventions used throughout:
* Python integers are `Int` (or `Nat` where the source value is a count).
* Python floats are real numbers `ℝ` (the float computations of the source are
  modelled in exact real arithmetic).
* A play date is an `Int`, its offset in days from "today": `0` is today,
  negative values are past days, so `(datetime.today() - play_date).days`
  becomes `-d`.
* Fallible Python code is modelled with `Except PyErr`.
-/

namespace GameStats

/-- Outcomes of the Python exceptions that the embedded code can raise. -/
inductive PyErr where
  | valueError
  | typeError
  | attributeError
  | indexError
  | statisticsError
  | timeout
  | tooManyRequests
  | transport (code : Nat)
  deriving DecidableEq

/-- A dynamically typed Python value as it may appear in a lambda event
    (only the shapes the claims exercise: a string, an integer, `None`). -/
inductive PyVal where
  | vstr (s : String)
  | vint (n : Int)
  | vnone
  deriving DecidableEq

/-- Decidable equality for `Except`, used to evaluate embedded results. -/
instance {ε α : Type} [DecidableEq ε] [DecidableEq α] : DecidableEq (Except ε α)
  | .error a, .error b =>
      if h : a = b then .isTrue (by rw [h]) else .isFalse (by simp [h])
  | .error _, .ok _ => .isFalse (by simp)
  | .ok _, .error _ => .isFalse (by simp)
  | .ok a, .ok b =>
      if h : a = b then .isTrue (by rw [h]) else .isFalse (by simp [h])

/-- Value of a nonempty digit string, most significant digit first. -/
def digitsVal (cs : List Char) : Nat :=
  cs.foldl (fun acc c => acc * 10 + (c.toNat - Char.toNat '0')) 0

/-- Strip leading and trailing whitespace from a character list (the effect
    of Python's `str.strip` that `int(...)` applies to its argument). -/
def stripWs (cs : List Char) : List Char :=
  (((cs.dropWhile Char.isWhitespace).reverse.dropWhile Char.isWhitespace)).reverse

/-- Python's `int(s)` on a string: surrounding whitespace is stripped, an
    optional sign is allowed, then at least one decimal digit; anything else
    raises `ValueError`.  (Underscore digit grouping is not modelled; no claim
    exercises it.) -/
def pyInt (s : String) : Except PyErr Int :=
  match stripWs s.toList with
  | '-' :: rest =>
      if rest ≠ [] ∧ rest.all Char.isDigit then .ok (-(digitsVal rest : Int))
      else .error .valueError
  | '+' :: rest =>
      if rest ≠ [] ∧ rest.all Char.isDigit then .ok (digitsVal rest : Int)
      else .error .valueError
  | cs =>
      if cs ≠ [] ∧ cs.all Char.isDigit then .ok (digitsVal cs : Int)
      else .error .valueError

/-- Python's `int(v)` on a dynamically typed value: a string is parsed, an
    integer is returned unchanged, `None` (or any non-coercible type) raises
    `TypeError` rather than `ValueError`. -/
def pyIntOf : PyVal → Except PyErr Int
  | .vstr s => pyInt s
  | .vint n => .ok n
  | .vnone => .error .typeError

/-- Python list indexing `l[i]`: a negative index counts from the end and an
    out-of-range index raises `IndexError`. -/
def pyIndex {α : Type} [Inhabited α] (l : List α) (i : Int) : Except PyErr α :=
  let j : Int := if i < 0 then i + l.length else i
  if 0 ≤ j ∧ j < l.length then .ok (l.getD j.toNat default) else .error .indexError

/-- `src/lambda_function.py`, `lambda_handler` lines 9-15: the computation of
    `max_baseless_results` from the optional `maxBaselessResults` event field.
    The default is 99; only `ValueError` from `int(...)` is swallowed
    (`except ValueError: pass`), every other exception propagates.  The
    resulting value is then passed to `get_stats`. -/
def lambda_max_baseless_results (field : Option PyVal) : Except PyErr Int :=
  match field with
  | none => .ok 99
  | some v =>
      match pyIntOf v with
      | .ok n => .ok n
      | .error .valueError => .ok 99
      | .error e => .error e

/-- `src/lambda_function.py`, module level (lines 45-49): the result-count
    limit chosen by the CLI dispatch.  `argv` is the full `sys.argv` including
    the program name.  With two user arguments the second goes through
    `int(sys.argv[2])` with no exception handler, so a parse failure is an
    uncaught `ValueError`; with one user argument the limit is 99; with none,
    no stats invocation happens (`none`). -/
def cli_max_results (argv : List String) : Option (Except PyErr Int) :=
  match argv with
  | _ :: _ :: m :: _ => some (pyInt m)
  | _ :: _ :: [] => some (.ok 99)
  | _ => none

/-- Result of `get_coins` (src/baseless.py lines 112-139). -/
structure Coins where
  nickels : Nat
  dimes : Nat
  quarters : Nat
  halves : Nat
  dollars : Nat
  deriving DecidableEq

/-- One iteration of the `for play in plays` loop of `get_coins`:
    descending threshold checks, first match wins. -/
def coins_step (c : Coins) (play : Nat) : Coins :=
  if play ≥ 100 then { c with dollars := c.dollars + 1 }
  else if play ≥ 50 then { c with halves := c.halves + 1 }
  else if play ≥ 25 then { c with quarters := c.quarters + 1 }
  else if play ≥ 10 then { c with dimes := c.dimes + 1 }
  else if play ≥ 5 then { c with nickels := c.nickels + 1 }
  else c

/-- `get_coins` from src/baseless.py: all five counters start at 0 and the
    play counts are folded through the threshold cascade. -/
def get_coins (plays : List Nat) : Coins :=
  plays.foldl coins_step ⟨0, 0, 0, 0, 0⟩

/-- Insertion step of Python's ascending `sorted`. -/
def insertAsc (x : Nat) : List Nat → List Nat
  | [] => [x]
  | y :: ys => if x ≤ y then x :: y :: ys else y :: insertAsc x ys

/-- `sorted(plays)`: ascending sort of a play-count list. -/
def sortAsc (l : List Nat) : List Nat := l.foldr insertAsc []

/-- Insertion step of Python's `sorted(..., reverse=True)`. -/
def insertDesc (x : Nat) : List Nat → List Nat
  | [] => [x]
  | y :: ys => if y ≤ x then x :: y :: ys else y :: insertDesc x ys

/-- `sorted(plays, reverse=True)`: descending sort of a play-count list. -/
def sortDesc (l : List Nat) : List Nat := l.foldr insertDesc []

/-- The `while` loop of `get_h_index` (src/baseless.py lines 142-154):
    `while h_index + 1 < len(plays_desc) and h_index + 1 <= plays_desc[h_index]:
       h_index += 1`. -/
def h_index_loop (plays_desc : List Nat) (h : Nat) : Nat :=
  if h + 1 < plays_desc.length ∧ h + 1 ≤ plays_desc.getD h 0 then
    h_index_loop plays_desc (h + 1)
  else h
termination_by plays_desc.length - h
decreasing_by omega

/-- `get_h_index` from src/baseless.py: sort descending, then run the loop
    starting from 0. -/
def get_h_index (plays : List Nat) : Nat :=
  h_index_loop (sortDesc plays) 0

/-- `h_index` from src/bgg.py (lines 6-11).  Its body sorts `plays` — the
    module-global play-count list — not its `plays_list` parameter, which is
    never used; the `plays` argument here stands for that module global. -/
def bgg_h_index (plays : List Nat) (plays_list : List Nat) : Nat :=
  h_index_loop (sortDesc plays) 0

/-- `friendless` from src/bgg.py (lines 13-25): the discrete friendless
    metric of a play-count list (this version does use its parameter). -/
def bgg_friendless (plays_list : List Nat) : Except PyErr Int := do
  let plays_heavy := (plays_list.filter (fun x => 10 ≤ x)).length
  let plays_none := (plays_list.filter (fun x => x = 0)).length
  let plays_asc := sortAsc plays_list
  if plays_heavy < plays_none then
    pure ((plays_heavy : Int) - (plays_none : Int))
  else if plays_heavy = plays_list.length then do
    let v ← pyIndex plays_asc ((plays_heavy : Int) - 1)
    pure (v : Int)
  else do
    let v ← pyIndex plays_asc (plays_heavy : Int)
    pure (v : Int)

/-! ### Real-valued statistics (src/baseless.py) -/

/-- `LAMBDA_FRIENDLESS = 0.2303` (src/baseless.py line 16). -/
noncomputable def LAMBDA_FRIENDLESS : ℝ := 0.2303

/-- `(datetime.today() - play_date).days` for a play date given as an offset
    `d` in days from today (`0` = today, negative = past). -/
def days_old (d : Int) : Int := -d

/-- `__get_cdf` (src/baseless.py lines 297-308): the exponential CDF
    `1 - e^(-lambda * x)`. -/
noncomputable def get_cdf (x_var lam : ℝ) : ℝ := 1.0 - Real.exp (-lam * x_var)

/-- `__get_baseless_recency` (src/baseless.py lines 286-289):
    `exp(-.04 * (delta.days / 365.25) ** 2)`. -/
noncomputable def get_baseless_recency (d : Int) : ℝ :=
  Real.exp (-0.04 * (((days_old d : Int) : ℝ) / 365.25) ^ 2)

/-- `__get_baseless_frequency_score` (src/baseless.py lines 292-294). -/
noncomputable def get_baseless_frequency_score (num_plays : ℝ) : ℝ :=
  get_cdf num_plays LAMBDA_FRIENDLESS

/-- `__get_baseless_frecency_score` (src/baseless.py lines 277-283): sum the
    per-play recency decays and apply the exponential CDF to the sum. -/
noncomputable def get_baseless_frecency_score (play_dates : List Int) : ℝ :=
  get_baseless_frequency_score ((play_dates.map get_baseless_recency).sum)

/-- `get_baseless_optimum_size` (src/baseless.py lines 256-270):
    `2 * sum(map(__get_baseless_frecency_score, play_dates))`. -/
noncomputable def get_baseless_optimum_size (play_dates : List (List Int)) : ℝ :=
  2 * ((play_dates.map get_baseless_frecency_score).sum)

/-- Python's `round(x, p)` modelled in real arithmetic: round to `p` decimal
    places.  (Python rounds float ties to even; no claim depends on tie
    behaviour, so nearest-integer rounding is used.) -/
noncomputable def pyRound (x : ℝ) (p : Nat) : ℝ :=
  ((round (x * 10 ^ p) : Int) : ℝ) / 10 ^ p

/-- `statistics.mean` on a list of floats: raises on an empty list. -/
noncomputable def statistics_mean (l : List ℝ) : Except PyErr ℝ :=
  match l with
  | [] => .error .statisticsError
  | _ => .ok (l.sum / l.length)

/-- `__get_avg_cdf` (src/baseless.py lines 370-372). -/
noncomputable def get_avg_cdf (plays : List Nat) (lam : ℝ) : Except PyErr ℝ :=
  statistics_mean (plays.map (fun x => get_cdf x lam))

/-- `__get_inverse_cdf` (src/baseless.py lines 375-377). -/
noncomputable def get_inverse_cdf (avg_cdf lam : ℝ) : ℝ :=
  -Real.log (1 - avg_cdf) / lam

/-- `__get_plays_cumulative_days_old` (src/baseless.py lines 380-385). -/
def plays_cumulative_days_old (plays : List Int) : Int :=
  (plays.map days_old).sum

/-- Result of `get_friendless` (src/baseless.py lines 157-188). -/
structure FriendlessResult where
  friendlessMetric : Int
  continuousFriendlessMetric : ℝ
  utilization : ℝ

/-- `get_friendless` from src/baseless.py: the discrete metric (with Python
    list indexing that raises `IndexError` when out of range), then the
    continuous metric and utilization from the average CDF. -/
noncomputable def get_friendless (plays : List Nat) (precision : Nat) :
    Except PyErr FriendlessResult := do
  let plays_heavy := (plays.filter (fun x => 10 ≤ x)).length
  let plays_none := (plays.filter (fun x => x = 0)).length
  let plays_asc := sortAsc plays
  let friendless_metric : Int ←
    if plays_heavy < plays_none then
      pure ((plays_heavy : Int) - (plays_none : Int))
    else if plays_heavy = plays.length then do
      let v ← pyIndex plays_asc ((plays_heavy : Int) - 1)
      pure (v : Int)
    else do
      let v ← pyIndex plays_asc (plays_heavy : Int)
      pure (v : Int)
  let avg_cdf ← get_avg_cdf plays LAMBDA_FRIENDLESS
  let continuous_friendless := pyRound (get_inverse_cdf avg_cdf LAMBDA_FRIENDLESS) precision
  let utilization := pyRound avg_cdf precision
  pure { friendlessMetric := friendless_metric,
         continuousFriendlessMetric := continuous_friendless,
         utilization := utilization }

/-! ### HTTP retry policy (src/baseless.py lines 397-429) -/

/-- What the server sends on one attempt: a normal response (Python `urlopen`
    returns it, e.g. statuses 200 and 202) or an error status for which
    `urlopen` raises `HTTPError`. -/
inductive ServerResp where
  | normal (code : Nat) (body : String)
  | httpError (code : Nat)

/-- What the embedded `__urlopen` produces: a body/status pair, or a re-raised
    `HTTPError` that propagates. -/
inductive UrlResult where
  | ok (body : String) (code : Nat)
  | raised (code : Nat)

/-- `__urlopen` (src/baseless.py lines 418-429): an `HTTPError` with code 429
    is mapped to `('', 429)`; any other `HTTPError` is re-raised; a normal
    response yields its body and status code. -/
def urlopen : ServerResp → UrlResult
  | .normal code body => .ok body code
  | .httpError code => if code = 429 then .ok "" 429 else .raised code

/-- The `while (code in (202, 429) and retries <= 2)` loop of
    `__urlopen_retry` (src/baseless.py lines 397-415), plus the final status
    checks after the loop.  `responses` gives the server's answer to each
    re-fetch (`responses attempt` is the answer to fetch number `attempt`,
    the initial fetch being number 0).  The second component records the
    `time.sleep` durations in seconds, in order. -/
def urlopen_retry_loop (responses : Nat → ServerResp) (attempt : Nat)
    (body : String) (code : Nat) (retries : Nat) (sleeps : List Nat) :
    Except PyErr String × List Nat :=
  if h : (code = 202 ∨ code = 429) ∧ retries ≤ 2 then
    let retries2 := retries + 1
    let sleep_time := if code = 202 then 2 ^ retries2 else 5
    match urlopen (responses attempt) with
    | .raised c => (.error (.transport c), sleeps ++ [sleep_time])
    | .ok b c => urlopen_retry_loop responses (attempt + 1) b c retries2 (sleeps ++ [sleep_time])
  else
    if code = 202 then (.error .timeout, sleeps)
    else if code = 429 then (.error .tooManyRequests, sleeps)
    else (.ok body, sleeps)
termination_by 3 - retries
decreasing_by omega

/-- `__urlopen_retry` (src/baseless.py lines 397-415): initial fetch, then the
    retry loop; an `HTTPError` raised by the very first `__urlopen` propagates
    unretried. -/
def urlopen_retry (responses : Nat → ServerResp) : Except PyErr String × List Nat :=
  match urlopen (responses 0) with
  | .raised c => (.error (.transport c), [])
  | .ok b c => urlopen_retry_loop responses 1 b c 0 []

/-! ### Stats entry point (src/lambda_function.py) -/

/-- `Game` from src/baseless.py with its play dates held directly
    (dates as day offsets from today, see the file header). -/
structure Game where
  game_id : Nat
  game_name : String
  is_owned : Bool
  is_previously_owned : Bool
  plays : List Int

/-- The names bound at module level in src/baseless.py: its two constants,
    the `Game` class, and every `def` of the file (imported names omitted —
    none of them is relevant here).  `get_baseless_mean_frecency`, which
    `get_stats` calls, is not among them, so that call raises
    `AttributeError`. -/
def baselessModuleNames : List String :=
  ["BGG_API", "LAMBDA_FRIENDLESS", "Game",
   "download_games", "get_base_stats", "get_coins", "get_h_index",
   "get_friendless", "get_baseless_next_plays", "get_baseless_optimum_size",
   "__get_baseless_frecency_score", "__get_baseless_recency",
   "__get_baseless_frequency_score", "__get_cdf", "__get_ccdf",
   "__get_h_index_cusp_games", "__group_by_plays", "__get_avg_cdf",
   "__get_inverse_cdf", "__get_plays_cumulative_days_old",
   "__urlopen_retry", "__urlopen", "__download_bgg_plays"]

/-- The output document `get_stats` is meant to assemble
    (src/lambda_function.py lines 20-42).  Note there is no coin-bucket
    field: `get_stats` never calls `get_coins`. -/
structure OutputDoc where
  collectionSize : Nat
  baselessStats_optimumCollectionSize : ℝ
  baselessStats_averageOwnedFrecency : ℝ
  baseStats_mean : ℝ
  baseStats_median : ℝ
  baseStats_h_index : Nat
  friendlessStats : FriendlessResult
  baselessNextPlays_names : List String

/-- `get_stats` (src/lambda_function.py lines 20-42), applied to the games
    that `download_games` returned.  Execution proceeds in source order:
    `collectionSize` and `optimumCollectionSize` are computed, then the
    statement
    `output['baselessStats']['averageOwnedFrecency'] =
       round(baseless.get_baseless_mean_frecency(owned_plays), 3)`
    looks up `get_baseless_mean_frecency` on the `baseless` module.  The name
    is not defined there, so the lookup raises `AttributeError` and nothing
    after it (base stats, friendless stats, the truncated next-plays list) is
    ever reached; the `absurd` branch is provably dead. -/
noncomputable def get_stats (games : List Game) (max_next_play_results : Int) :
    Except PyErr OutputDoc :=
  let plays := games.map (fun g => g.plays)
  let owned_games := games.filter (fun g => g.is_owned)
  let owned_plays := owned_games.map (fun g => g.plays)
  let owned_play_counts := owned_games.map (fun g => g.plays.length)
  let collectionSize := owned_games.length
  let optimumCollectionSize := pyRound (get_baseless_optimum_size plays) 2
  if h : "get_baseless_mean_frecency" ∈ baselessModuleNames then
    absurd h (by decide)
  else
    .error .attributeError

/-! ### Heap model for `get_baseless_next_plays` (src/baseless.py 191-253)

Python lists are mutable objects; to state that `get_baseless_next_plays`
never mutates its input, plays lists live in an explicit store and games hold
references into it. -/

/-- A store of Python list objects: cell `r` holds the list the reference `r`
    points to. -/
structure Store where
  cells : List (List Int)

/-- Dereference: reading an allocated cell (unallocated references read as
    `[]`; the claims only use allocated ones). -/
def Store.read (s : Store) (r : Nat) : List Int := s.cells.getD r []

/-- Python's `list.copy()`: allocate a fresh cell holding the same elements
    and return its reference. -/
def Store.copy (s : Store) (r : Nat) : Store × Nat :=
  (⟨s.cells ++ [s.read r]⟩, s.cells.length)

/-- Python's `list.append(d)` on the list object `r`: in-place update. -/
def Store.append (s : Store) (r : Nat) (d : Int) : Store :=
  ⟨s.cells.set r (s.read r ++ [d])⟩

/-- A `Game` whose `plays` field is a reference to a mutable list object. -/
structure GameObj where
  game_id : Nat
  game_name : String
  is_owned : Bool
  is_previously_owned : Bool
  playsRef : Nat

/-- One per-game projection object built by `get_baseless_next_plays`
    (`latestPlay` is kept as the date itself; `strftime` formatting is not
    modelled). -/
structure NextPlayObj where
  name : String
  currentPlays : Nat
  latestPlay : Option Int
  meanPlayAgeYears : Option ℝ
  ageAdjustedPlays : ℝ
  frecency : ℝ
  optimumSizeGain : ℝ
  frecencyGain : ℝ

/-- One iteration of the `for game in games` loop of
    `get_baseless_next_plays` (src/baseless.py lines 205-251).  The only
    store effects are `game.plays.copy()` (a fresh cell) and
    `adjusted_plays.append(datetime.now())` (an append to that fresh cell;
    `datetime.now()` is day offset `0`). -/
noncomputable def next_plays_step (games : List GameObj) (optimum_size : ℝ)
    (s : Store) (game : GameObj) : Store × NextPlayObj :=
  let plays := s.read game.playsRef
  let currentPlays := plays.length
  let latestPlay := if plays ≠ [] then plays.max? else none
  let meanPlayAgeYears :=
    if plays ≠ [] then
      some (pyRound (((plays_cumulative_days_old plays : Int) : ℝ) / plays.length / 365.25) 2)
    else none
  let baseless_frecency := get_baseless_frecency_score plays
  let baseless_age_adjusted_plays := (plays.map get_baseless_recency).sum
  let copied := s.copy game.playsRef
  let s1 := copied.1
  let adjusted_plays := copied.2
  let s2 := s1.append adjusted_plays 0
  let adjusted_list_of_plays :=
    games.map (fun g => if g.game_id = game.game_id then s2.read adjusted_plays
                        else s2.read g.playsRef)
  let next_play_optimum_size := get_baseless_optimum_size adjusted_list_of_plays
  let next_play_frecency := get_baseless_frecency_score (s2.read adjusted_plays)
  (s2,
   { name := game.game_name,
     currentPlays := currentPlays,
     latestPlay := latestPlay,
     meanPlayAgeYears := meanPlayAgeYears,
     ageAdjustedPlays := pyRound baseless_age_adjusted_plays 2,
     frecency := pyRound baseless_frecency 3,
     optimumSizeGain := pyRound (next_play_optimum_size - optimum_size) 3,
     frecencyGain := pyRound (next_play_frecency - baseless_frecency) 3 })

/-- The whole `for game in games` loop, threading the store and collecting
    the result objects in order. -/
noncomputable def next_plays_loop (games : List GameObj) (optimum_size : ℝ)
    (s : Store) : List GameObj → Store × List NextPlayObj
  | [] => (s, [])
  | g :: rest =>
    let step := next_plays_step games optimum_size s g
    let tail := next_plays_loop games optimum_size step.1 rest
    (tail.1, step.2 :: tail.2)

/-- `sorted(result, key=lambda x: x['baseless']['optimumSizeGain'],
    reverse=True)`: a stable descending sort on the gain. -/
noncomputable def sortByGainDesc (l : List NextPlayObj) : List NextPlayObj :=
  l.mergeSort (fun a b => decide (b.optimumSizeGain ≤ a.optimumSizeGain))

/-- `get_baseless_next_plays` (src/baseless.py lines 191-253) over the store:
    compute the current optimum size from the live plays lists, run the loop,
    sort the projections by descending optimum-size gain.  Returns the final
    store alongside the result. -/
noncomputable def get_baseless_next_plays (games : List GameObj) (s : Store) :
    Store × List NextPlayObj :=
  let plays := games.map (fun g => s.read g.playsRef)
  let optimum_size := get_baseless_optimum_size plays
  let looped := next_plays_loop games optimum_size s games
  (looped.1, sortByGainDesc looped.2)

/-! ## Helper lemmas -/

theorem LAMBDA_FRIENDLESS_pos : 0 < LAMBDA_FRIENDLESS := by
  norm_num [LAMBDA_FRIENDLESS]

theorem get_baseless_recency_pos (d : Int) : 0 < get_baseless_recency d :=
  Real.exp_pos _

theorem get_baseless_recency_today : get_baseless_recency 0 = 1 := by
  norm_num [get_baseless_recency, days_old, Real.exp_zero]

theorem frecency_eq (l : List Int) :
    get_baseless_frecency_score l =
      1 - Real.exp (-LAMBDA_FRIENDLESS * (l.map get_baseless_recency).sum) := by
  norm_num [get_baseless_frecency_score, get_baseless_frequency_score, get_cdf]

theorem recency_sum_nonneg (l : List Int) : 0 ≤ (l.map get_baseless_recency).sum := by
  apply List.sum_nonneg
  intro x hx
  obtain ⟨d, _, rfl⟩ := List.mem_map.1 hx
  exact le_of_lt (get_baseless_recency_pos d)

theorem recency_sum_pos {l : List Int} (h : l ≠ []) :
    0 < (l.map get_baseless_recency).sum := by
  apply List.sum_pos
  · intro x hx
    obtain ⟨d, _, rfl⟩ := List.mem_map.1 hx
    exact get_baseless_recency_pos d
  · simpa using h

theorem frecency_pos {l : List Int} (h : l ≠ []) : 0 < get_baseless_frecency_score l := by
  rw [frecency_eq]
  have hs := recency_sum_pos h
  have : Real.exp (-LAMBDA_FRIENDLESS * (l.map get_baseless_recency).sum) < 1 := by
    rw [show (1 : ℝ) = Real.exp 0 by rw [Real.exp_zero]]
    rw [Real.exp_lt_exp]
    have := LAMBDA_FRIENDLESS_pos
    nlinarith
  linarith

theorem length_insertAsc (x : Nat) (l : List Nat) : (insertAsc x l).length = l.length + 1 := by
  induction l with
  | nil => rfl
  | cons y ys ih =>
    rw [insertAsc]
    split_ifs <;> simp [ih]

theorem length_sortAsc (l : List Nat) : (sortAsc l).length = l.length := by
  induction l with
  | nil => rfl
  | cons x t ih =>
    show (insertAsc x (sortAsc t)).length = t.length + 1
    rw [length_insertAsc, ih]

theorem pyIndex_ok {α : Type} [Inhabited α] (l : List α) (i : Int)
    (h0 : 0 ≤ i) (h : i < l.length) :
    pyIndex l i = .ok (l.getD i.toNat default) := by
  simp only [pyIndex]
  have hneg : ¬ i < 0 := by omega
  rw [if_neg hneg, if_pos ⟨h0, by omega⟩]

theorem ok_bind {ε α β : Type} (a : α) (f : α → Except ε β) :
    (Except.ok a : Except ε α) >>= f = f a := rfl

theorem pure_eq_ok {ε α : Type} (a : α) : (pure a : Except ε α) = .ok a := rfl

theorem urlopen_retry_loop_sleeps_le (n : Nat) :
    ∀ (responses : Nat → ServerResp) (attempt : Nat) (body : String) (code retries : Nat)
      (sleeps : List Nat), 3 - retries ≤ n →
      ((urlopen_retry_loop responses attempt body code retries sleeps).2).length ≤
        sleeps.length + n := by
  induction n with
  | zero =>
    intro responses attempt body code retries sleeps hn
    rw [urlopen_retry_loop]
    have hcond : ¬ ((code = 202 ∨ code = 429) ∧ retries ≤ 2) := by omega
    rw [dif_neg hcond]
    split_ifs <;> simp
  | succ n ih =>
    intro responses attempt body code retries sleeps hn
    rw [urlopen_retry_loop]
    by_cases hcond : (code = 202 ∨ code = 429) ∧ retries ≤ 2
    · rw [dif_pos hcond]
      cases hu : urlopen (responses attempt) with
      | raised c => simp [hu]
      | ok b c =>
        simp only [hu]
        have := ih responses (attempt + 1) b c (retries + 1)
          (sleeps ++ [if code = 202 then 2 ^ (retries + 1) else 5]) (by omega)
        simp at this ⊢
        omega
    · rw [dif_neg hcond]
      split_ifs <;> simp

set_option maxHeartbeats 1000000 in
theorem coins_foldl_spec (l : List Nat) : ∀ c : Coins,
    l.foldl coins_step c =
      { nickels := c.nickels + l.countP (fun p => decide (5 ≤ p ∧ p < 10)),
        dimes := c.dimes + l.countP (fun p => decide (10 ≤ p ∧ p < 25)),
        quarters := c.quarters + l.countP (fun p => decide (25 ≤ p ∧ p < 50)),
        halves := c.halves + l.countP (fun p => decide (50 ≤ p ∧ p < 100)),
        dollars := c.dollars + l.countP (fun p => decide (100 ≤ p)) } := by
  induction l with
  | nil => intro c; simp
  | cons p t ih =>
    intro c
    rw [List.foldl_cons, ih]
    simp only [List.countP_cons, decide_eq_true_eq, coins_step]
    split_ifs <;> simp only [Coins.mk.injEq] <;> omega

theorem Store.read_copy_fst (s : Store) (r q : Nat) (hq : q < s.cells.length) :
    ((s.copy r).1).read q = s.read q := by
  simp only [Store.copy, Store.read]
  rw [List.getD_append _ _ _ _ hq]

theorem Store.read_append_ne (s : Store) (r q : Nat) (d : Int) (hq : q ≠ r) :
    (s.append r d).read q = s.read q := by
  simp only [Store.append, Store.read, List.getD_eq_getElem?_getD]
  rw [List.getElem?_set_ne (Ne.symm hq)]

theorem next_plays_step_store (games : List GameObj) (opt : ℝ) (s : Store) (g : GameObj) :
    ((next_plays_step games opt s g).1).cells.length = s.cells.length + 1 ∧
    ∀ q < s.cells.length, ((next_plays_step games opt s g).1).read q = s.read q := by
  constructor
  · show ((Store.copy s g.playsRef).1.append s.cells.length 0).cells.length = _
    simp [Store.append, Store.copy]
  · intro q hq
    show ((Store.copy s g.playsRef).1.append s.cells.length 0).read q = s.read q
    rw [Store.read_append_ne _ _ _ _ (by omega), Store.read_copy_fst _ _ _ hq]

theorem next_plays_loop_store (games : List GameObj) (opt : ℝ) (todo : List GameObj) :
    ∀ s : Store,
      s.cells.length ≤ ((next_plays_loop games opt s todo).1).cells.length ∧
      ∀ q < s.cells.length, ((next_plays_loop games opt s todo).1).read q = s.read q := by
  induction todo with
  | nil => exact fun s => ⟨le_refl _, fun q hq => rfl⟩
  | cons g rest ih =>
    intro s
    have hstep := next_plays_step_store games opt s g
    have hrest := ih ((next_plays_step games opt s g).1)
    have hfst : (next_plays_loop games opt s (g :: rest)).1 =
        (next_plays_loop games opt ((next_plays_step games opt s g).1) rest).1 := rfl
    constructor
    · rw [hfst]; omega
    · intro q hq
      rw [hfst, hrest.2 q (by omega), hstep.2 q hq]

/-! ## Claim theorems -/

/-- C1: the claim says `get_stats` returns a document with collection size,
    base statistics, coin buckets, optimum collection size, friendless
    metrics and the truncated next-play list.  In fact, for every downloaded
    games list and every limit, `get_stats` raises `AttributeError`: the
    statement computing `averageOwnedFrecency` calls
    `baseless.get_baseless_mean_frecency`, a name absent from the `baseless`
    module (second conjunct), so no document is ever returned (and the code
    never computes coin buckets in any case). -/
theorem C1_get_stats_attribute_error :
    (∀ (games : List Game) (mres : Int), get_stats games mres = .error .attributeError) ∧
    "get_baseless_mean_frecency" ∉ baselessModuleNames := by
  refine ⟨fun games mres => ?_, by decide⟩
  simp only [get_stats]
  rw [dif_neg (by decide)]

/-- C2: evaluation of `get_h_index` at the claim's reference inputs.  The
    claim (and the code's own docstring) require the largest `h` with at
    least `h` entries that are each at least `h`, which is 6 on
    `[6,6,6,6,6,6]` (second conjunct: at least 6 entries are ≥ 6); the code
    returns 5 on that list because its loop guard uses
    `h_index + 1 < len(plays_desc)` instead of `≤`.  The other three
    reference values (1, 0, 0) match the claim. -/
theorem C2_h_index_code_bug_eval :
    get_h_index [6, 6, 6, 6, 6, 6] = 5 ∧
    6 ≤ List.countP (fun x => decide (6 ≤ x)) [6, 6, 6, 6, 6, 6] ∧
    get_h_index [1, 1, 1] = 1 ∧ get_h_index [] = 0 ∧ get_h_index [0, 0, 0] = 0 := by
  refine ⟨?_, by decide, ?_, ?_, ?_⟩ <;>
    simp [get_h_index, h_index_loop, sortDesc, insertDesc]

/-- C3 counterexample: on `[4, 5, 9, 10, 24, 25, 49, 50, 99, 100]` the code
    does not return one count per bucket as the claim states: 9 also lands in
    nickels, 24 in dimes, 49 in quarters and 99 in halves. -/
theorem C3_coins_example_counterexample :
    get_coins [4, 5, 9, 10, 24, 25, 49, 50, 99, 100] ≠
      { nickels := 1, dimes := 1, quarters := 1, halves := 1, dollars := 1 } := by decide

/-- C3 amended: `get_coins` assigns each play count to exactly one bucket by
    descending threshold checks — dollars = counts ≥ 100, halves = counts in
    [50, 100), quarters = [25, 50), dimes = [10, 25), nickels = [5, 10),
    sub-5 counts uncategorized — and on the reference input it returns
    `{nickels: 2, dimes: 2, quarters: 2, halves: 2, dollars: 1}`. -/
theorem C3_coins_amended :
    (∀ l : List Nat, get_coins l =
      { nickels := l.countP (fun p => decide (5 ≤ p ∧ p < 10)),
        dimes := l.countP (fun p => decide (10 ≤ p ∧ p < 25)),
        quarters := l.countP (fun p => decide (25 ≤ p ∧ p < 50)),
        halves := l.countP (fun p => decide (50 ≤ p ∧ p < 100)),
        dollars := l.countP (fun p => decide (100 ≤ p)) }) ∧
    get_coins [4, 5, 9, 10, 24, 25, 49, 50, 99, 100] =
      { nickels := 2, dimes := 2, quarters := 2, halves := 2, dollars := 1 } := by
  refine ⟨fun l => ?_, by decide⟩
  have := coins_foldl_spec l ⟨0, 0, 0, 0, 0⟩
  simpa [get_coins] using this

/-- C4 counterexample: against a server that always answers 202, the retry
    wrapper sleeps three times (2, 4 and 8 seconds), i.e. it retries 3 times,
    not at most 2 as the claim states (the loop guard `retries <= 2` is
    checked before the increment). -/
theorem C4_retry_counterexample :
    (urlopen_retry (fun _ => ServerResp.normal 202 "")).2 = [2, 4, 8] ∧
    ¬ ((urlopen_retry (fun _ => ServerResp.normal 202 "")).2.length ≤ 2) := by
  have h : urlopen_retry (fun _ => ServerResp.normal 202 "") = (.error .timeout, [2, 4, 8]) := by
    simp [urlopen_retry, urlopen, urlopen_retry_loop]
  rw [h]
  exact ⟨rfl, by decide⟩

/-- C4 amended: the wrapper retries at most 3 times; a persistent 202 gets
    backoff sleeps doubling from 2 seconds (2, 4, 8) and then fails with the
    processing-timeout error; a persistent 429 gets three fixed 5-second
    waits and then fails with the rate-limited error; any other error status
    from the first fetch propagates as a fatal transport error immediately,
    with no retry. -/
theorem C4_retry_amended :
    (∀ responses, ((urlopen_retry responses).2).length ≤ 3) ∧
    (∀ b, urlopen_retry (fun _ => ServerResp.normal 202 b) = (.error .timeout, [2, 4, 8])) ∧
    (urlopen_retry (fun _ => ServerResp.httpError 429) = (.error .tooManyRequests, [5, 5, 5])) ∧
    (∀ responses c, responses 0 = ServerResp.httpError c → c ≠ 429 →
      urlopen_retry responses = (.error (.transport c), [])) := by
  refine ⟨?_, ?_, ?_, ?_⟩
  · intro responses
    rw [urlopen_retry]
    cases hu : urlopen (responses 0) with
    | raised c => simp
    | ok b c =>
      have := urlopen_retry_loop_sleeps_le 3 responses 1 b c 0 [] (by omega)
      simpa using this
  · intro b; simp [urlopen_retry, urlopen, urlopen_retry_loop]
  · simp [urlopen_retry, urlopen, urlopen_retry_loop]
  · intro responses c h hne
    rw [urlopen_retry, h]
    simp [urlopen, hne]

/-- C4 witness: the amended theorem applied to a server whose first answer is
    a fatal 500: the error propagates with no sleeps. -/
theorem C4_retry_amended_witness :
    urlopen_retry (fun _ => ServerResp.httpError 500) = (.error (.transport 500), []) :=
  C4_retry_amended.2.2.2 (fun _ => ServerResp.httpError 500) 500 rfl (by decide)

/-- C5 counterexample: an event value `"-5"` is not coercible to a
    non-negative integer, yet the limit becomes -5, not 99; an event value
    `None` raises an uncaught `TypeError` instead of defaulting; and an
    invalid CLI second argument raises an uncaught `ValueError` instead of
    being ignored in favor of the default. -/
theorem C5_max_results_counterexample :
    lambda_max_baseless_results (some (PyVal.vstr "-5")) = .ok (-5) ∧
    lambda_max_baseless_results (some PyVal.vnone) = .error .typeError ∧
    cli_max_results ["lambda_function.py", "someuser", "notanint"] =
      some (.error .valueError) := by
  refine ⟨by decide, rfl, by decide⟩

/-- C5 amended: at the lambda surface the limit is 99 when the field is
    absent or when `int(...)` raises `ValueError`; a value coercible to any
    integer — including a negative one — is used as-is; an exception other
    than `ValueError` (e.g. `TypeError` on `None`) propagates uncaught.  At
    the CLI, the second argument's `int(...)` result — success or uncaught
    `ValueError` — is passed through unchanged, and with a single argument
    the limit is 99. -/
theorem C5_max_results_amended :
    lambda_max_baseless_results none = .ok 99 ∧
    (∀ v, pyIntOf v = .error .valueError → lambda_max_baseless_results (some v) = .ok 99) ∧
    (∀ v n, pyIntOf v = .ok n → lambda_max_baseless_results (some v) = .ok n) ∧
    (∀ v e, pyIntOf v = .error e → e ≠ .valueError →
      lambda_max_baseless_results (some v) = .error e) ∧
    (∀ p u m rest, cli_max_results (p :: u :: m :: rest) = some (pyInt m)) ∧
    (∀ p u, cli_max_results [p, u] = some (.ok 99)) := by
  refine ⟨rfl, ?_, ?_, ?_, fun p u m rest => rfl, fun p u => rfl⟩
  · intro v h; simp [lambda_max_baseless_results, h]
  · intro v n h; simp [lambda_max_baseless_results, h]
  · intro v e h hne
    cases e <;> simp [lambda_max_baseless_results, h] <;> simp_all

/-- C5 witness: the amended theorem applied at concrete inputs for each of
    its hypothesis-bearing conjuncts. -/
theorem C5_max_results_amended_witness :
    lambda_max_baseless_results (some (PyVal.vstr "abc")) = .ok 99 ∧
    lambda_max_baseless_results (some (PyVal.vstr "7")) = .ok 7 ∧
    lambda_max_baseless_results (some PyVal.vnone) = .error .typeError ∧
    cli_max_results ["prog", "u", "x"] = some (pyInt "x") :=
  ⟨C5_max_results_amended.2.1 _ (by decide),
   C5_max_results_amended.2.2.1 _ 7 (by decide),
   C5_max_results_amended.2.2.2.1 _ _ rfl (by decide),
   C5_max_results_amended.2.2.2.2.1 _ _ _ []⟩

/-- C6: `get_baseless_optimum_size` returns exactly 2 times the sum of the
    per-game frecency scores; it returns 0 on the empty list; and appending a
    game with at least one play dated today strictly increases the result. -/
theorem C6_optimum_size :
    (∀ L : List (List Int),
      get_baseless_optimum_size L = 2 * ((L.map get_baseless_frecency_score).sum)) ∧
    get_baseless_optimum_size [] = 0 ∧
    (∀ (L : List (List Int)) (g : List Int), (0 : Int) ∈ g →
      get_baseless_optimum_size L < get_baseless_optimum_size (L ++ [g])) := by
  refine ⟨fun L => rfl, by simp [get_baseless_optimum_size], ?_⟩
  intro L g hg
  have hne : g ≠ [] := by rintro rfl; simp at hg
  have hpos := frecency_pos hne
  simp only [get_baseless_optimum_size, List.map_append, List.sum_append, List.map_cons,
    List.map_nil, List.sum_cons, List.sum_nil]
  nlinarith

/-- C6 witness: appending one game played today to the empty collection
    strictly increases the optimum size. -/
theorem C6_optimum_size_witness :
    get_baseless_optimum_size [] < get_baseless_optimum_size ([] ++ [[(0 : Int)]]) :=
  C6_optimum_size.2.2 [] [0] (by decide)

/-- C7: the frecency score of an empty play-date list is 0; for every list of
    play dates none of which is in the future it lies in [0, 1); and it is
    strictly increasing in the number of plays dated today appended to the
    list. -/
theorem C7_frecency_score :
    get_baseless_frecency_score [] = 0 ∧
    (∀ l : List Int, (∀ d ∈ l, d ≤ 0) →
      0 ≤ get_baseless_frecency_score l ∧ get_baseless_frecency_score l < 1) ∧
    (∀ (l : List Int) (k₁ k₂ : Nat), k₁ < k₂ →
      get_baseless_frecency_score (l ++ List.replicate k₁ 0) <
        get_baseless_frecency_score (l ++ List.replicate k₂ 0)) := by
  refine ⟨?_, ?_, ?_⟩
  · rw [frecency_eq]; simp
  · intro l _
    constructor
    · rw [frecency_eq]
      have hs := recency_sum_nonneg l
      have : Real.exp (-LAMBDA_FRIENDLESS * (l.map get_baseless_recency).sum) ≤ 1 := by
        rw [Real.exp_le_one_iff]
        have := LAMBDA_FRIENDLESS_pos
        nlinarith
      linarith
    · rw [frecency_eq]
      have := Real.exp_pos (-LAMBDA_FRIENDLESS * (l.map get_baseless_recency).sum)
      linarith
  · intro l k₁ k₂ hk
    rw [frecency_eq, frecency_eq]
    have hsum : ∀ k : Nat, ((l ++ List.replicate k (0 : Int)).map get_baseless_recency).sum =
        (l.map get_baseless_recency).sum + k := by
      intro k
      rw [List.map_append, List.sum_append, List.map_replicate, get_baseless_recency_today,
        List.sum_replicate, nsmul_eq_mul, mul_one]
    rw [hsum, hsum]
    have hl := LAMBDA_FRIENDLESS_pos
    have hexp : Real.exp (-LAMBDA_FRIENDLESS * ((l.map get_baseless_recency).sum + k₂)) <
        Real.exp (-LAMBDA_FRIENDLESS * ((l.map get_baseless_recency).sum + k₁)) := by
      rw [Real.exp_lt_exp]
      have : (k₁ : ℝ) < k₂ := by exact_mod_cast hk
      nlinarith
    linarith

/-- C7 witness: the bounds at a one-play list dated yesterday, and strictness
    going from zero to one play dated today. -/
theorem C7_frecency_score_witness :
    (0 ≤ get_baseless_frecency_score [-1] ∧ get_baseless_frecency_score [-1] < 1) ∧
    get_baseless_frecency_score ([] ++ List.replicate 0 (0 : Int)) <
      get_baseless_frecency_score ([] ++ List.replicate 1 (0 : Int)) :=
  ⟨C7_frecency_score.2.1 [-1] (by decide), C7_frecency_score.2.2 [] 0 1 (by decide)⟩

/-- C8: for every non-empty play-count list the discrete friendless metric
    equals `heavy - none` when `heavy < none`, `asc[heavy - 1]` when `heavy`
    equals the list length, and `asc[heavy]` otherwise, where `heavy` counts
    entries ≥ 10, `none` counts zero entries and `asc` is the ascending sort;
    both the engine's `get_friendless` and the legacy `friendless` satisfy
    this, and the indexing never raises (both return `.ok`). -/
theorem C8_friendless_metric (l : List Nat) (p : Nat) (hne : l ≠ [])
    (heavy plays_none : Nat) (asc : List Nat) (m : Int)
    (hh : heavy = (l.filter (fun x => 10 ≤ x)).length)
    (hn : plays_none = (l.filter (fun x => x = 0)).length)
    (hasc : asc = sortAsc l)
    (hm : m = if heavy < plays_none then (heavy : Int) - (plays_none : Int)
              else if heavy = l.length then (asc.getD (heavy - 1) 0 : Int)
              else (asc.getD heavy 0 : Int)) :
    (∃ r, get_friendless l p = .ok r ∧ r.friendlessMetric = m) ∧
    bgg_friendless l = .ok m := by
  subst hh hn hasc
  have hlen : 0 < l.length := List.length_pos.2 hne
  have hheavy_le : (l.filter (fun x => 10 ≤ x)).length ≤ l.length := List.length_filter_le _ l
  have hasclen : (sortAsc l).length = l.length := length_sortAsc l
  obtain ⟨a, ha⟩ : ∃ a, get_avg_cdf l LAMBDA_FRIENDLESS = .ok a := by
    obtain ⟨b, t, rfl⟩ := List.exists_cons_of_ne_nil hne
    exact ⟨_, rfl⟩
  simp only [get_friendless, bgg_friendless]
  split_ifs at hm ⊢ with h1 h2
  · rw [hm]
    simp only [pure_eq_ok, ok_bind, ha]
    exact ⟨⟨_, rfl, rfl⟩, by trivial⟩
  · have h0 : (0 : Int) ≤ ((l.filter (fun x => 10 ≤ x)).length : Int) - 1 := by omega
    have hlt : ((l.filter (fun x => 10 ≤ x)).length : Int) - 1 < (sortAsc l).length := by
      rw [hasclen]; omega
    have htn : (((l.filter (fun x => 10 ≤ x)).length : Int) - 1).toNat =
        (l.filter (fun x => 10 ≤ x)).length - 1 := by omega
    rw [hm]
    simp only [pyIndex_ok _ _ h0 hlt, htn, pure_eq_ok, ok_bind, ha]
    exact ⟨⟨_, rfl, rfl⟩, by trivial⟩
  · have h0 : (0 : Int) ≤ ((l.filter (fun x => 10 ≤ x)).length : Int) := by omega
    have hlt : ((l.filter (fun x => 10 ≤ x)).length : Int) < (sortAsc l).length := by
      rw [hasclen]; omega
    rw [hm]
    simp only [pyIndex_ok _ _ h0 hlt, Int.toNat_natCast, pure_eq_ok, ok_bind, ha]
    exact ⟨⟨_, rfl, rfl⟩, by trivial⟩

/-- C8 witness: the theorem applied to the one-element list `[1]`, where
    `heavy = none = 0`, so the metric is `asc[0] = 1` in both
    implementations. -/
theorem C8_friendless_metric_witness :
    (∃ r, get_friendless [1] 2 = .ok r ∧ r.friendlessMetric = 1) ∧
    bgg_friendless [1] = .ok 1 :=
  C8_friendless_metric [1] 2 (by decide) 0 0 [1] 1 rfl rfl rfl rfl

/-- C9: the legacy `h_index` of src/bgg.py ignores its `plays_list` parameter
    and computes the h-index of the module-global `plays` list, so it does
    not agree with `get_h_index` on its argument: with global `[]` and
    argument `[2, 2]` the legacy function returns 0 while `get_h_index`
    returns 1. -/
theorem C9_h_index_duplicates_code_bug :
    (∀ g l : List Nat, bgg_h_index g l = get_h_index g) ∧
    bgg_h_index [] [2, 2] = 0 ∧ get_h_index [2, 2] = 1 := by
  refine ⟨fun g l => rfl, ?_, ?_⟩ <;>
    simp [bgg_h_index, get_h_index, h_index_loop, sortDesc, insertDesc]

/-- C10: `get_baseless_next_plays` never mutates its input: for every games
    list whose plays references are allocated in the store, after the call
    every game's plays list reads exactly as before — the simulated extra
    play dated now is appended to a freshly copied list only. -/
theorem C10_next_plays_no_mutation (games : List GameObj) (s : Store)
    (hvalid : ∀ g ∈ games, g.playsRef < s.cells.length) :
    ∀ g ∈ games, ((get_baseless_next_plays games s).1).read g.playsRef = s.read g.playsRef := by
  intro g hg
  exact (next_plays_loop_store games
    (get_baseless_optimum_size (games.map (fun g => s.read g.playsRef))) games s).2
    g.playsRef (hvalid g hg)

/-- C10 witness: a one-game store; the game's plays list is unchanged by the
    call. -/
theorem C10_next_plays_no_mutation_witness :
    ((get_baseless_next_plays [⟨1, "g", true, false, 0⟩] ⟨[[-10]]⟩).1).read 0 =
      Store.read ⟨[[-10]]⟩ 0 :=
  C10_next_plays_no_mutation [⟨1, "g", true, false, 0⟩] ⟨[[-10]]⟩ (by simp)
    ⟨1, "g", true, false, 0⟩ (by simp)

end GameStats
